import Mathlib

/-!
Verification of the Fibonacci generator script (`fibonacci.py`).

The script has one pure function, `generate_fibonacci`, and a driver
`main` that prints a fixed report for `n = 20`.  Python integers are
arbitrary precision, so machine integers are modelled as `Int`; the
`fibonacci[-1]` access in `main`, which raises `IndexError` on an empty
list, is modelled with `Option`.
-/

namespace Fib

/-- Reference mathematical Fibonacci numbers: F(0)=0, F(1)=1,
F(k)=F(k-1)+F(k-2). -/
def fib : Nat → Int
  | 0 => 0
  | 1 => 1
  | k + 2 => fib (k + 1) + fib k

/-- The body of the `for i in range(2, n)` loop of `generate_fibonacci`:
state is the list built so far together with the loop index `i`; each
iteration appends `fibonacci[i-1] + fibonacci[i-2]`.  `k` counts the
remaining iterations. -/
def fibLoop : List Int → Nat → Nat → List Int
  | fibonacci, _, 0 => fibonacci
  | fibonacci, i, k + 1 =>
      fibLoop (fibonacci ++ [fibonacci.getD (i - 1) 0 + fibonacci.getD (i - 2) 0]) (i + 1) k

/-- Embedding of `generate_fibonacci(n)` from `fibonacci.py`:
`n <= 0` returns `[]`, `n == 1` returns `[0]`, otherwise the loop runs
for `i = 2, ..., n-1` starting from `[0, 1]`. -/
def generate_fibonacci (n : Int) : List Int :=
  if n ≤ 0 then []
  else if n = 1 then [0]
  else fibLoop [0, 1] 2 (n.toNat - 2)

/-- Embedding of `main()`: builds the printed lines for the fixed
`n = 20`.  The final line reads `fib_numbers[-1]`, which fails on an
empty list, hence the `Option`. -/
def main_run : Option (List String) :=
  let n : Int := 20
  let fib_numbers := generate_fibonacci n
  (fib_numbers.getLast?).map fun last =>
    ["The first " ++ toString n ++ " Fibonacci numbers are:",
     String.mk (List.replicate 40 '-')]
    ++ fib_numbers.enum.map (fun p => "F(" ++ toString p.1 ++ "): " ++ toString p.2)
    ++ [String.mk (List.replicate 40 '-'),
        "The " ++ toString n ++ "th Fibonacci number is: " ++ toString last]

theorem fibLoop_spec (k : Nat) : ∀ i : Nat, 2 ≤ i →
    fibLoop ((List.range i).map fib) i k = (List.range (i + k)).map fib := by
  induction k with
  | zero => intro i _; simp [fibLoop]
  | succ k ih =>
    intro i hi
    obtain ⟨m, rfl⟩ : ∃ m, i = m + 2 := ⟨i - 2, by omega⟩
    rw [fibLoop]
    have hlen : ((List.range (m + 2)).map fib).length = m + 2 := by simp
    have h1 : ((List.range (m + 2)).map fib).getD (m + 2 - 1) 0 = fib (m + 1) := by
      rw [List.getD_eq_getElem _ _ (by omega)]
      simp
    have h2 : ((List.range (m + 2)).map fib).getD (m + 2 - 2) 0 = fib m := by
      rw [List.getD_eq_getElem _ _ (by omega)]
      simp
    rw [h1, h2]
    have hstep : (List.range (m + 2)).map fib ++ [fib (m + 1) + fib m]
        = (List.range (m + 3)).map fib := by
      have hf : fib (m + 1) + fib m = fib (m + 2) := by simp [fib]
      rw [hf]
      simp [List.range_succ]
    rw [hstep]
    rw [ih (m + 3) (by omega)]
    rw [show m + 3 + k = m + 2 + (k + 1) from by omega]

/-- The generator agrees with the reference Fibonacci function on every
integer input. -/
theorem generate_fibonacci_eq (n : Int) :
    generate_fibonacci n = (List.range n.toNat).map fib := by
  unfold generate_fibonacci
  by_cases h0 : n ≤ 0
  · rw [if_pos h0, Int.toNat_of_nonpos h0]
    simp
  · rw [if_neg h0]
    by_cases h1 : n = 1
    · rw [if_pos h1, h1]
      decide
    · rw [if_neg h1]
      have h2 : 2 ≤ n.toNat := by omega
      have hinit : ([0, 1] : List Int) = (List.range 2).map fib := by decide
      rw [hinit, fibLoop_spec (n.toNat - 2) 2 (by omega)]
      rw [show 2 + (n.toNat - 2) = n.toNat from by omega]

theorem generate_fibonacci_length (n : Int) :
    (generate_fibonacci n).length = n.toNat := by
  rw [generate_fibonacci_eq]
  simp

/-- C1: for every integer n ≥ 0 and every index 0 ≤ i < n, the i-th
element of `generate_fibonacci n` is the mathematical Fibonacci number
F(i) (F(0)=0, F(1)=1, F(k)=F(k-1)+F(k-2)), computed over unbounded `Int`
with no truncation or overflow. -/
theorem generate_fibonacci_correct (n : Int) (i : Nat) (hn : 0 ≤ n)
    (hi : (i : Int) < n) : (generate_fibonacci n).getD i 0 = fib i := by
  rw [generate_fibonacci_eq]
  rw [List.getD_eq_getElem _ _ (by simp; omega)]
  simp

/-- Witness for C1 at n = 10, i = 7. -/
theorem generate_fibonacci_correct_witness :
    (0 : Int) ≤ 10 ∧ ((7 : Nat) : Int) < 10 ∧
      (generate_fibonacci 10).getD 7 0 = fib 7 :=
  ⟨by decide, by decide, generate_fibonacci_correct 10 7 (by decide) (by decide)⟩

/-- C2: for every integer n ≤ 0, including negative n,
`generate_fibonacci n` returns the empty sequence; the function is total,
so no integer input signals failure. -/
theorem generate_fibonacci_nonpos (n : Int) (h : n ≤ 0) :
    generate_fibonacci n = [] := by
  unfold generate_fibonacci
  rw [if_pos h]

/-- Witness for C2 at n = -5. -/
theorem generate_fibonacci_nonpos_witness :
    (-5 : Int) ≤ 0 ∧ generate_fibonacci (-5) = [] :=
  ⟨by decide, generate_fibonacci_nonpos (-5) (by decide)⟩

/-- C3: for every integer n ≥ 1, `generate_fibonacci n` has length
exactly n. -/
theorem generate_fibonacci_len (n : Int) (h : 1 ≤ n) :
    ((generate_fibonacci n).length : Int) = n := by
  rw [generate_fibonacci_length]
  omega

/-- Witness for C3 at n = 5. -/
theorem generate_fibonacci_len_witness :
    (1 : Int) ≤ 5 ∧ ((generate_fibonacci 5).length : Int) = 5 :=
  ⟨by decide, generate_fibonacci_len 5 (by decide)⟩

/-- C4: for every integer n ≥ 2 and every index 2 ≤ i < n, the result of
`generate_fibonacci n` satisfies result[i] = result[i-1] + result[i-2]. -/
theorem generate_fibonacci_recurrence (n : Int) (i : Nat) (hn : 2 ≤ n)
    (hi2 : 2 ≤ i) (hin : (i : Int) < n) :
    (generate_fibonacci n).getD i 0
      = (generate_fibonacci n).getD (i - 1) 0
        + (generate_fibonacci n).getD (i - 2) 0 := by
  obtain ⟨m, rfl⟩ : ∃ m, i = m + 2 := ⟨i - 2, by omega⟩
  rw [generate_fibonacci_eq]
  rw [List.getD_eq_getElem _ _ (by simp; omega),
    List.getD_eq_getElem _ _ (by simp; omega),
    List.getD_eq_getElem _ _ (by simp; omega)]
  simp [fib]

/-- Witness for C4 at n = 6, i = 4. -/
theorem generate_fibonacci_recurrence_witness :
    (2 : Int) ≤ 6 ∧ 2 ≤ 4 ∧ ((4 : Nat) : Int) < 6 ∧
      (generate_fibonacci 6).getD 4 0
        = (generate_fibonacci 6).getD 3 0 + (generate_fibonacci 6).getD 2 0 :=
  ⟨by decide, by decide, by decide,
    generate_fibonacci_recurrence 6 4 (by decide) (by decide) (by decide)⟩

/-- C5: `generate_fibonacci` is a pure function of its argument: it reads
no state, so any two calls on equal inputs return identical sequences. -/
theorem generate_fibonacci_deterministic (a b : Int) (h : a = b) :
    generate_fibonacci a = generate_fibonacci b := by
  rw [h]

/-- Witness for C5 at a = b = 7. -/
theorem generate_fibonacci_deterministic_witness :
    (7 : Int) = 7 ∧ generate_fibonacci 7 = generate_fibonacci 7 :=
  ⟨rfl, generate_fibonacci_deterministic 7 7 rfl⟩

/-- C6: `generate_fibonacci 20` is exactly the 20-element sequence ending
in 4181. -/
theorem generate_fibonacci_twenty :
    generate_fibonacci 20
      = [0, 1, 1, 2, 3, 5, 8, 13, 21, 34, 55, 89, 144, 233, 377, 610,
         987, 1597, 2584, 4181]
    ∧ (generate_fibonacci 20).getLast? = some 4181 := by
  decide

/-- C7: `generate_fibonacci 1` returns exactly the one-element sequence
[0]. -/
theorem generate_fibonacci_one : generate_fibonacci 1 = [0] := by
  decide

/-- C8: the default run (`main`, n fixed at 20) prints, in order: a
header line announcing 20 numbers, a separator of exactly 40 dashes,
exactly 20 lines of the form F(i): value for i = 0, ..., 19 in sequence
order, an identical 40-dash separator, and a summary line containing
4181. -/
theorem main_run_format :
    main_run = some
      (["The first 20 Fibonacci numbers are:",
        String.mk (List.replicate 40 '-')]
       ++ (List.range 20).map (fun i => "F(" ++ toString i ++ "): " ++ toString (fib i))
       ++ [String.mk (List.replicate 40 '-'),
           "The 20th Fibonacci number is: 4181"])
    ∧ (String.mk (List.replicate 40 '-')).length = 40
    ∧ (String.mk (List.replicate 40 '-')).toList.all (fun c => c = '-') = true := by
  decide

/-- C9: the default run always completes: the sequence for n = 20 is
non-empty, so the last-element access succeeds and the out-of-range
error branch (`main_run = none`) is unreachable. -/
theorem main_run_completes : main_run.isSome = true := by
  decide

/-- C10: prefix monotonicity: for all integers 0 ≤ m ≤ n,
`generate_fibonacci m` equals the first m elements of
`generate_fibonacci n`; growing the count never changes earlier
elements. -/
theorem generate_fibonacci_take (m n : Int) (h0 : 0 ≤ m) (h1 : m ≤ n) :
    generate_fibonacci m = (generate_fibonacci n).take m.toNat := by
  rw [generate_fibonacci_eq, generate_fibonacci_eq, ← List.map_take,
    List.take_range]
  rw [show min m.toNat n.toNat = m.toNat from by omega]

/-- Witness for C10 at m = 3, n = 6. -/
theorem generate_fibonacci_take_witness :
    (0 : Int) ≤ 3 ∧ (3 : Int) ≤ 6 ∧
      generate_fibonacci 3 = (generate_fibonacci 6).take (3 : Int).toNat :=
  ⟨by decide, by decide, generate_fibonacci_take 3 6 (by decide) (by decide)⟩

end Fib
